import Mathlib

/-!
Shallow embedding of the `evoter` Solana/Anchor voting program
(`programs/evoter/src/lib.rs`) and proofs about its three instruction
handlers `create_poll`, `vote_poll`, `close_poll`, its account data model
(`PollAccount`, `VoteRecord`), its storage-budget computation, and its
PDA-based addressing scheme.

Modelling conventions:
* Public keys are opaque identities, modelled as `Nat`.
* Rust `String` fields are modelled as byte lists (`List Nat`); Rust
  `String::len` is the list length.
* `u64` counters are `Nat` with explicit overflow checks against
  `2 ^ 64 - 1` (mirroring `checked_add`); `poll_id` (a `u64`) is reduced
  `% 2 ^ 64` where it enters the PDA seed bytes (`to_le_bytes`).
* Anchor's account-validation phase (PDA derivation, `init`, `has_one`)
  is generated by the framework and is not part of this repository's
  source; it is modelled from the spec (see the `Modelled from the
  spec:` doc comments) as an explicit validation pipeline executed
  before the handler body, with the whole instruction applied
  atomically: any failure leaves the state unchanged.
-/

/-- A public key / principal identity, modelled opaquely. -/
abbrev Pubkey := Nat

/-- Byte-string contents of a Rust `String`; `len` is list length. -/
abbrev RStr := List Nat

/-- `2 ^ 64`, the modulus of `u64` arithmetic. -/
def U64MOD : Nat := 2 ^ 64

/-- `u64::MAX`, the largest representable counter value. -/
def U64MAX : Nat := 2 ^ 64 - 1

/-- Modelled from the spec: the deterministic key-derivation component
(`find_program_address` of the runtime, not in this repository's source).
An address is a pure function of the seed tuple; the two seed shapes used
by the program — `["poll", creator, poll_id.to_le_bytes]` at
`CreatePoll` and `["vote", poll, voter]` at `VotePoll` — are modelled as
the two constructors, so distinct seed tuples yield distinct addresses
(the spec's collision-freeness), and re-derivation from the same tuple is
definitionally the same address. The one-way/hash aspect of derivation is
outside the embedding and is not modelled. -/
inductive Addr : Type where
  | pollPda (creator : Pubkey) (pollIdLe : Nat) : Addr
  | votePda (poll : Addr) (voter : Pubkey) : Addr
deriving DecidableEq, Repr

/-- Derive the poll PDA from seeds `["poll", creator, poll_id.to_le_bytes]`
(`lib.rs:143`); the `u64` little-endian byte seed is captured by reducing
`poll_id` modulo `2 ^ 64`. -/
def derivePollAddr (creator : Pubkey) (poll_id : Nat) : Addr :=
  Addr.pollPda creator (poll_id % U64MOD)

/-- Derive the vote-marker PDA from seeds `["vote", poll, voter]`
(`lib.rs:169`). -/
def deriveVoteAddr (poll : Addr) (voter : Pubkey) : Addr :=
  Addr.votePda poll voter

/-- Modelled from the spec: the disambiguation byte ("bump") found by the
runtime during derivation and stored with each record; its numeric value
is opaque to the program logic, so it is modelled as a constant function
of the address. -/
def bumpOf (_ : Addr) : Nat := 255

/-- `PollAccount` (`lib.rs:197-205`): the on-chain poll record. -/
structure PollAccount : Type where
  creator : Pubkey
  poll_id : Nat
  question : RStr
  options : List RStr
  votes : List Nat
  is_active : Bool
  bump : Nat
deriving DecidableEq, Repr

/-- `PollAccount::MAX_OPTIONS` (`lib.rs:209`). -/
def PollAccount.MAX_OPTIONS : Nat := 10

/-- `PollAccount::MAX_QUESTION_LEN` (`lib.rs:210`). -/
def PollAccount.MAX_QUESTION_LEN : Nat := 200

/-- `PollAccount::MAX_OPTION_LEN` (`lib.rs:211`). -/
def PollAccount.MAX_OPTION_LEN : Nat := 50

/-- `PollAccount::calculate_max_space` (`lib.rs:215-236`): discriminator 8,
creator 32, poll_id 8, question `4 + MAX_QUESTION_LEN`, options
`4 + MAX_OPTIONS * (4 + MAX_OPTION_LEN)`, votes `4 + MAX_OPTIONS * 8`,
is_active 1, bump 1, padding 32. -/
def PollAccount.calculate_max_space : Nat :=
  8 + 32 + 8 + (4 + PollAccount.MAX_QUESTION_LEN)
    + (4 + PollAccount.MAX_OPTIONS * (4 + PollAccount.MAX_OPTION_LEN))
    + (4 + PollAccount.MAX_OPTIONS * 8)
    + 1 + 1 + 32

/-- `VoteRecord` (`lib.rs:240-245`): one marker per (poll, voter). -/
structure VoteRecord : Type where
  voter : Pubkey
  poll : Addr
  option_index : Nat
  bump : Nat
deriving DecidableEq, Repr

/-- `VoteRecord::SIZE` (`lib.rs:250`): discriminator 8 + voter 32 +
poll 32 + option_index 1 + bump 1. -/
def VoteRecord.SIZE : Nat := 8 + 32 + 32 + 1 + 1

/-- The program's own error enumeration `VotingError` (`lib.rs:281-304`). -/
inductive VotingError : Type where
  | NotEnoughOptions
  | TooManyOptions
  | QuestionTooLong
  | OptionTooLong
  | EmptyOption
  | PollClosed
  | PollAlreadyClosed
  | InvalidOption
  | Unauthorized
  | VoteOverflow
  | AlreadyVoted
deriving DecidableEq, Repr

/-- Modelled from the spec: the failures an instruction can surface.
Besides the program's `VotingError`s, the framework's account-validation
pipeline can fail on its own: `accountAlreadyInUse` when an `init`
constraint targets an occupied address (the "record already exists"
fault of spec section 9), `accountNotFound` when a named account cannot
be deserialized, and `constraintHasOne` when a `has_one` constraint
fails. -/
inductive TxError : Type where
  | voting (e : VotingError)
  | accountAlreadyInUse
  | accountNotFound
  | constraintHasOne
deriving DecidableEq, Repr

/-- The persistent store: polls and vote markers, each keyed by derived
address (the address itself is the index; no other lookup structure
exists). -/
structure EvoterState : Type where
  polls : List (Addr × PollAccount)
  voteRecords : List (Addr × VoteRecord)
deriving DecidableEq, Repr

/-- Look a record up by its derived address. -/
def alookup {α : Type} : List (Addr × α) → Addr → Option α
  | [], _ => none
  | (k, v) :: rest, a => if a = k then some v else alookup rest a

/-- Replace the record stored at an (occupied) address. -/
def updateA {α : Type} : List (Addr × α) → Addr → α → List (Addr × α)
  | [], _, _ => []
  | (k, v) :: rest, a, w => if a = k then (a, w) :: rest else (k, v) :: updateA rest a w

/-- Number of records stored under an address. -/
def countKey {α : Type} : List (Addr × α) → Addr → Nat
  | [], _ => 0
  | (k, _) :: rest, a => (if a = k then 1 else 0) + countKey rest a

/-- The state before any instruction has run. -/
def initState : EvoterState := ⟨[], []⟩

/-- `u64::checked_add` (`lib.rs:85`): `none` on overflow, never wraps. -/
def checked_add (a b : Nat) : Option Nat :=
  if a + b > U64MAX then none else some (a + b)

/-- The option-validation loop of `create_poll` (`lib.rs:27-30`): scan the
options in order; for each, `OptionTooLong` if its length exceeds
`MAX_OPTION_LEN`, else `EmptyOption` if it is empty. -/
def firstOptionError : List RStr → Option VotingError
  | [] => none
  | opt :: rest =>
    if opt.length > PollAccount.MAX_OPTION_LEN then some VotingError.OptionTooLong
    else if opt.length = 0 then some VotingError.EmptyOption
    else firstOptionError rest

/-- `create_poll` (`lib.rs:16-55`) together with its `CreatePoll` account
validation (`lib.rs:138-153`). Validation first `init`s the poll PDA at
`derivePollAddr creator poll_id` — modelled from the spec as failing with
`accountAlreadyInUse` when the address is occupied — then the handler
validates the inputs in source order and initializes the record with
zeroed counters and `is_active = true`. Any failure leaves the state
untouched (the instruction commits atomically). -/
def create_poll (s : EvoterState) (creator : Pubkey) (poll_id : Nat)
    (question : RStr) (options : List RStr) : Except TxError EvoterState :=
  let addr := derivePollAddr creator poll_id
  match alookup s.polls addr with
  | some _ => Except.error TxError.accountAlreadyInUse
  | none =>
    if options.length < 2 then Except.error (TxError.voting VotingError.NotEnoughOptions)
    else if options.length > PollAccount.MAX_OPTIONS then
      Except.error (TxError.voting VotingError.TooManyOptions)
    else if question.length > PollAccount.MAX_QUESTION_LEN then
      Except.error (TxError.voting VotingError.QuestionTooLong)
    else
      match firstOptionError options with
      | some e => Except.error (TxError.voting e)
      | none =>
        Except.ok
          { s with
            polls := (addr,
              { creator := creator
                poll_id := poll_id % U64MOD
                question := question
                options := options
                votes := List.replicate options.length 0
                is_active := true
                bump := bumpOf addr }) :: s.polls }

/-- `vote_poll` (`lib.rs:60-98`) together with its `VotePoll` account
validation (`lib.rs:157-183`). Validation deserializes the poll, checks
`has_one = creator` against the supplied creator account (modelled from
the spec as `constraintHasOne` on mismatch), and `init`s the vote-marker
PDA at `deriveVoteAddr poll voter` — failing with `accountAlreadyInUse`
when a marker already exists, the sole double-vote guard. The handler
then requires the poll active, the index in range, and increments the
counter with `checked_add`. The marker and the increment commit together
or not at all. -/
def vote_poll (s : EvoterState) (pollAddr : Addr) (voter : Pubkey)
    (suppliedCreator : Pubkey) (option_index : Nat) : Except TxError EvoterState :=
  match alookup s.polls pollAddr with
  | none => Except.error TxError.accountNotFound
  | some poll =>
    if suppliedCreator = poll.creator then
      match alookup s.voteRecords (deriveVoteAddr pollAddr voter) with
      | some _ => Except.error TxError.accountAlreadyInUse
      | none =>
        if poll.is_active then
          if option_index < poll.options.length then
            match checked_add (poll.votes.getD option_index 0) 1 with
            | none => Except.error (TxError.voting VotingError.VoteOverflow)
            | some n =>
              Except.ok
                { polls := updateA s.polls pollAddr
                    { poll with votes := poll.votes.set option_index n }
                  voteRecords := (deriveVoteAddr pollAddr voter,
                    { voter := voter
                      poll := pollAddr
                      option_index := option_index
                      bump := bumpOf (deriveVoteAddr pollAddr voter) }) :: s.voteRecords }
          else Except.error (TxError.voting VotingError.InvalidOption)
        else Except.error (TxError.voting VotingError.PollClosed)
    else Except.error TxError.constraintHasOne

/-- `close_poll` (`lib.rs:103-128`) together with its `ClosePoll` account
validation (`lib.rs:186-192`). The handler requires the caller's key to
equal `poll.creator` (`Unauthorized` otherwise), requires the poll still
active (`PollAlreadyClosed` otherwise), and flips `is_active` to false. -/
def close_poll (s : EvoterState) (pollAddr : Addr) (caller : Pubkey) :
    Except TxError EvoterState :=
  match alookup s.polls pollAddr with
  | none => Except.error TxError.accountNotFound
  | some poll =>
    if poll.creator = caller then
      if poll.is_active then
        Except.ok { s with polls := updateA s.polls pollAddr { poll with is_active := false } }
      else Except.error (TxError.voting VotingError.PollAlreadyClosed)
    else Except.error (TxError.voting VotingError.Unauthorized)

/-- One instruction submitted to the program. -/
inductive Op : Type where
  | create (creator : Pubkey) (poll_id : Nat) (question : RStr) (options : List RStr) : Op
  | vote (pollAddr : Addr) (voter : Pubkey) (suppliedCreator : Pubkey) (option_index : Nat) : Op
  | close (pollAddr : Addr) (caller : Pubkey) : Op
deriving DecidableEq, Repr

/-- Dispatch one instruction to its handler. -/
def applyOp (s : EvoterState) : Op → Except TxError EvoterState
  | Op.create c pid q os => create_poll s c pid q os
  | Op.vote pa v sc i => vote_poll s pa v sc i
  | Op.close pa c => close_poll s pa c

/-- The committed state after one instruction: a failed instruction
commits nothing. -/
def step (s : EvoterState) (op : Op) : EvoterState :=
  match applyOp s op with
  | Except.ok s2 => s2
  | Except.error _ => s

/-- Run a sequence of instructions. -/
def runOps (s : EvoterState) : List Op → EvoterState
  | [] => s
  | op :: rest => runOps (step s op) rest

/-- The i-th counter of a vote vector (0 when out of range). -/
def nth : List Nat → Nat → Nat
  | [], _ => 0
  | x :: _, 0 => x
  | _ :: xs, i + 1 => nth xs i

/-- C8: The storage budget computed for a PollRecord equals the sum of the
declared layout components at the maxima `MAX_OPTIONS = 10`,
`MAX_QUESTION_LEN = 200`, `MAX_OPTION_LEN = 50` — header 8 + creator 32 +
pollId 8 + (4 + 200) + (4 + 10 * (4 + 50)) + (4 + 10 * 8) + 1 + 1 +
reserved 32 — and the VoteRecord footprint is the compile-time constant
74 bytes (8 + 32 + 32 + 1 + 1). -/
theorem C8_storage_budget :
    PollAccount.calculate_max_space
      = 8 + 32 + 8 + (4 + 200) + (4 + 10 * (4 + 50)) + (4 + 10 * 8) + 1 + 1 + 32
    ∧ VoteRecord.SIZE = 8 + 32 + 32 + 1 + 1
    ∧ VoteRecord.SIZE = 74 := by
  refine ⟨rfl, rfl, ?_⟩
  decide

/-- C9: Address derivation is deterministic: deriving the poll address
twice from the same `(creator, pollId)` seed tuple gives the identical
address, deriving from `(creator, pollId + 1)` gives a different address,
and the vote-marker address is a deterministic function of
`(poll, voter)`. -/
theorem C9_derivation_deterministic :
    (∀ (c : Pubkey) (pid : Nat), derivePollAddr c pid = derivePollAddr c pid)
    ∧ (∀ (c : Pubkey) (pid : Nat), derivePollAddr c (pid + 1) ≠ derivePollAddr c pid)
    ∧ (∀ (p : Addr) (v : Pubkey), deriveVoteAddr p v = deriveVoteAddr p v) := by
  refine ⟨fun c pid => rfl, ?_, fun p v => rfl⟩
  intro c pid h
  have h2 : (pid + 1) % U64MOD = pid % U64MOD := by
    have := Addr.pollPda.injEq c ((pid + 1) % U64MOD) c (pid % U64MOD)
    simpa [derivePollAddr] using h
  have hm : U64MOD = 18446744073709551616 := by decide
  rw [hm] at h2
  omega

theorem firstOptionError_none (options : List RStr)
    (h : ∀ o ∈ options, 0 < o.length ∧ o.length ≤ PollAccount.MAX_OPTION_LEN) :
    firstOptionError options = none := by
  induction options with
  | nil => rfl
  | cons opt rest ih =>
    have h1 := h opt (List.mem_cons_self opt rest)
    rw [firstOptionError, if_neg (Nat.not_lt.mpr h1.2),
      if_neg (Nat.pos_iff_ne_zero.mp h1.1)]
    exact ih fun o ho => h o (List.mem_cons_of_mem opt ho)

theorem firstOptionError_tooLong (options : List RStr)
    (hne : ∀ o ∈ options, 0 < o.length)
    (hex : ∃ o ∈ options, PollAccount.MAX_OPTION_LEN < o.length) :
    firstOptionError options = some VotingError.OptionTooLong := by
  induction options with
  | nil => rcases hex with ⟨o, ho, _⟩; cases ho
  | cons opt rest ih =>
    by_cases hlen : PollAccount.MAX_OPTION_LEN < opt.length
    · rw [firstOptionError, if_pos hlen]
    · have h0 : opt.length ≠ 0 :=
        Nat.pos_iff_ne_zero.mp (hne opt (List.mem_cons_self opt rest))
      rw [firstOptionError, if_neg hlen, if_neg h0]
      apply ih fun o ho => hne o (List.mem_cons_of_mem opt ho)
      rcases hex with ⟨o, ho, hgt⟩
      rcases List.mem_cons.mp ho with rfl | hmem
      · exact absurd hgt hlen
      · exact ⟨o, hmem, hgt⟩

theorem firstOptionError_empty (options : List RStr)
    (hle : ∀ o ∈ options, o.length ≤ PollAccount.MAX_OPTION_LEN)
    (hex : ∃ o ∈ options, o.length = 0) :
    firstOptionError options = some VotingError.EmptyOption := by
  induction options with
  | nil => rcases hex with ⟨o, ho, _⟩; cases ho
  | cons opt rest ih =>
    have hlen : ¬ PollAccount.MAX_OPTION_LEN < opt.length :=
      Nat.not_lt.mpr (hle opt (List.mem_cons_self opt rest))
    by_cases h0 : opt.length = 0
    · rw [firstOptionError, if_neg hlen, if_pos h0]
    · rw [firstOptionError, if_neg hlen, if_neg h0]
      apply ih fun o ho => hle o (List.mem_cons_of_mem opt ho)
      rcases hex with ⟨o, ho, hz⟩
      rcases List.mem_cons.mp ho with rfl | hmem
      · exact absurd hz h0
      · exact ⟨o, hmem, hz⟩

theorem nth_replicate_zero (k i : Nat) : nth (List.replicate k 0) i = 0 := by
  induction k generalizing i with
  | zero => cases i <;> rfl
  | succ k ih =>
    cases i with
    | zero => rfl
    | succ i => exact ih i

/-- C1: for every input with `2 ≤ len(options) ≤ 10`, `len(question) ≤ 200`,
every option non-empty and of length at most 50, and the derived poll
address still free, `create_poll` succeeds and the stored record has
`len(votes) = len(options)`, all counters zero, `is_active = true`, and
`creator` equal to the calling principal. -/
theorem C1_create_poll_valid (s : EvoterState) (creator : Pubkey) (poll_id : Nat)
    (question : RStr) (options : List RStr)
    (hfresh : alookup s.polls (derivePollAddr creator poll_id) = none)
    (hmin : 2 ≤ options.length) (hmax : options.length ≤ 10)
    (hq : question.length ≤ 200)
    (hopts : ∀ o ∈ options, 0 < o.length ∧ o.length ≤ 50) :
    ∃ s2 p, create_poll s creator poll_id question options = Except.ok s2
      ∧ alookup s2.polls (derivePollAddr creator poll_id) = some p
      ∧ p.votes.length = p.options.length
      ∧ (∀ i, nth p.votes i = 0)
      ∧ p.is_active = true
      ∧ p.creator = creator
      ∧ p.options = options := by
  have hfoe : firstOptionError options = none := by
    apply firstOptionError_none
    intro o ho
    exact ⟨(hopts o ho).1, (hopts o ho).2⟩
  have hm : ¬ options.length > PollAccount.MAX_OPTIONS := by
    simp only [PollAccount.MAX_OPTIONS]; omega
  have hql : ¬ question.length > PollAccount.MAX_QUESTION_LEN := by
    simp only [PollAccount.MAX_QUESTION_LEN]; omega
  refine ⟨{ s with polls := (derivePollAddr creator poll_id,
      { creator := creator
        poll_id := poll_id % U64MOD
        question := question
        options := options
        votes := List.replicate options.length 0
        is_active := true
        bump := bumpOf (derivePollAddr creator poll_id) }) :: s.polls },
    { creator := creator
      poll_id := poll_id % U64MOD
      question := question
      options := options
      votes := List.replicate options.length 0
      is_active := true
      bump := bumpOf (derivePollAddr creator poll_id) }, ?_, ?_, ?_, ?_, rfl, rfl, rfl⟩
  · simp only [create_poll, hfresh, if_neg (Nat.not_lt.mpr hmin), if_neg hm, if_neg hql, hfoe]
  · simp [alookup]
  · simp only [List.length_replicate]
  · intro i
    exact nth_replicate_zero options.length i

theorem C1_witness :
    ∃ s2 p, create_poll initState 0 1 [65] [[65], [66]] = Except.ok s2
      ∧ alookup s2.polls (derivePollAddr 0 1) = some p
      ∧ p.votes.length = p.options.length
      ∧ (∀ i, nth p.votes i = 0)
      ∧ p.is_active = true
      ∧ p.creator = 0
      ∧ p.options = [[65], [66]] :=
  C1_create_poll_valid initState 0 1 [65] [[65], [66]] rfl (by decide) (by decide)
    (by decide) (by decide)

/-- C2: `create_poll` rejects invalid input with the matching
`VotingError`, each check running in source order (option count, then
option count upper bound, then question length, then the per-option scan
that reports an over-long option before an empty one), and a failing
instruction commits no state change. -/
theorem C2_create_poll_validation (s : EvoterState) (creator : Pubkey) (poll_id : Nat)
    (question : RStr) (options : List RStr)
    (hfresh : alookup s.polls (derivePollAddr creator poll_id) = none) :
    (options.length < 2 →
      create_poll s creator poll_id question options
        = Except.error (TxError.voting VotingError.NotEnoughOptions))
    ∧ (options.length > 10 →
      create_poll s creator poll_id question options
        = Except.error (TxError.voting VotingError.TooManyOptions))
    ∧ (2 ≤ options.length → options.length ≤ 10 → question.length > 200 →
      create_poll s creator poll_id question options
        = Except.error (TxError.voting VotingError.QuestionTooLong))
    ∧ (2 ≤ options.length → options.length ≤ 10 → question.length ≤ 200 →
      (∀ o ∈ options, 0 < o.length) → (∃ o ∈ options, 50 < o.length) →
      create_poll s creator poll_id question options
        = Except.error (TxError.voting VotingError.OptionTooLong))
    ∧ (2 ≤ options.length → options.length ≤ 10 → question.length ≤ 200 →
      (∀ o ∈ options, o.length ≤ 50) → (∃ o ∈ options, o.length = 0) →
      create_poll s creator poll_id question options
        = Except.error (TxError.voting VotingError.EmptyOption))
    ∧ (∀ e, create_poll s creator poll_id question options = Except.error e →
      step s (Op.create creator poll_id question options) = s) := by
  refine ⟨?_, ?_, ?_, ?_, ?_, ?_⟩
  · intro h
    simp only [create_poll, hfresh, if_pos h]
  · intro h
    have h2 : ¬ options.length < 2 := by omega
    have h10 : options.length > PollAccount.MAX_OPTIONS := by
      simp only [PollAccount.MAX_OPTIONS]; omega
    simp only [create_poll, hfresh, if_neg h2, if_pos h10]
  · intro hmin hmax hq
    have h2 : ¬ options.length < 2 := by omega
    have h10 : ¬ options.length > PollAccount.MAX_OPTIONS := by
      simp only [PollAccount.MAX_OPTIONS]; omega
    have hqq : question.length > PollAccount.MAX_QUESTION_LEN := by
      simp only [PollAccount.MAX_QUESTION_LEN]; omega
    simp only [create_poll, hfresh, if_neg h2, if_neg h10, if_pos hqq]
  · intro hmin hmax hq hne hex
    have h2 : ¬ options.length < 2 := by omega
    have h10 : ¬ options.length > PollAccount.MAX_OPTIONS := by
      simp only [PollAccount.MAX_OPTIONS]; omega
    have hqq : ¬ question.length > PollAccount.MAX_QUESTION_LEN := by
      simp only [PollAccount.MAX_QUESTION_LEN]; omega
    have hfoe : firstOptionError options = some VotingError.OptionTooLong :=
      firstOptionError_tooLong options hne hex
    simp only [create_poll, hfresh, if_neg h2, if_neg h10, if_neg hqq, hfoe]
  · intro hmin hmax hq hle hex
    have h2 : ¬ options.length < 2 := by omega
    have h10 : ¬ options.length > PollAccount.MAX_OPTIONS := by
      simp only [PollAccount.MAX_OPTIONS]; omega
    have hqq : ¬ question.length > PollAccount.MAX_QUESTION_LEN := by
      simp only [PollAccount.MAX_QUESTION_LEN]; omega
    have hfoe : firstOptionError options = some VotingError.EmptyOption :=
      firstOptionError_empty options hle hex
    simp only [create_poll, hfresh, if_neg h2, if_neg h10, if_neg hqq, hfoe]
  · intro e he
    simp only [step, applyOp, he]

theorem C2_witness :
    create_poll initState 0 1 [65] [[65]]
      = Except.error (TxError.voting VotingError.NotEnoughOptions) :=
  (C2_create_poll_validation initState 0 1 [65] [[65]] rfl).1 (by decide)

theorem alookup_updateA_self {α : Type} (m : List (Addr × α)) (k : Addr) (v w : α)
    (h : alookup m k = some w) : alookup (updateA m k v) k = some v := by
  induction m with
  | nil => cases h
  | cons kv rest ih =>
    obtain ⟨k1, v1⟩ := kv
    by_cases hk : k = k1
    · simp [updateA, alookup, hk]
    · rw [alookup, if_neg hk] at h
      rw [updateA, if_neg hk, alookup, if_neg hk]
      exact ih h

theorem alookup_updateA_ne {α : Type} (m : List (Addr × α)) (k a : Addr) (v : α)
    (h : a ≠ k) : alookup (updateA m k v) a = alookup m a := by
  induction m with
  | nil => rfl
  | cons kv rest ih =>
    obtain ⟨k1, v1⟩ := kv
    by_cases hk : k = k1
    · subst hk
      rw [updateA, if_pos rfl, alookup, if_neg h, alookup, if_neg h]
    · rw [updateA, if_neg hk]
      by_cases ha : a = k1
      · rw [alookup, if_pos ha, alookup, if_pos ha]
      · rw [alookup, if_neg ha, alookup, if_neg ha]
        exact ih

theorem countKey_eq_zero {α : Type} (m : List (Addr × α)) (k : Addr)
    (h : alookup m k = none) : countKey m k = 0 := by
  induction m with
  | nil => rfl
  | cons kv rest ih =>
    obtain ⟨k1, v1⟩ := kv
    by_cases hk : k = k1
    · rw [alookup, if_pos hk] at h; cases h
    · rw [alookup, if_neg hk] at h
      rw [countKey, if_neg hk, ih h]

theorem nth_eq_getD (l : List Nat) (i : Nat) : nth l i = l.getD i 0 := by
  induction l generalizing i with
  | nil => cases i <;> rfl
  | cons x xs ih =>
    cases i with
    | zero => rfl
    | succ i => simpa [List.getD] using ih i

theorem nth_set_self (l : List Nat) (i n : Nat) (h : i < l.length) :
    nth (l.set i n) i = n := by
  induction l generalizing i with
  | nil => exact absurd h (Nat.not_lt_zero i)
  | cons x xs ih =>
    cases i with
    | zero => rfl
    | succ i => exact ih i (Nat.lt_of_succ_lt_succ h)

theorem nth_set_ne (l : List Nat) (i j n : Nat) (h : j ≠ i) :
    nth (l.set i n) j = nth l j := by
  induction l generalizing i j with
  | nil => rfl
  | cons x xs ih =>
    cases i with
    | zero =>
      cases j with
      | zero => exact absurd rfl h
      | succ j => rfl
    | succ i =>
      cases j with
      | zero => rfl
      | succ j => exact ih i j fun hh => h (congrArg Nat.succ hh)

/-- C3: for any active poll whose supplied creator account matches, a
voter with no existing marker, a valid option index, and a counter below
`u64::MAX`, `vote_poll` succeeds, increments `votes[i]` by exactly 1,
leaves every other counter (and the options, activity flag and creator)
unchanged, and stores exactly one `VoteRecord` at the derived
`(poll, voter)` address recording this voter, this poll, and index `i`. -/
theorem C3_first_vote (s : EvoterState) (pollAddr : Addr)
    (voter suppliedCreator : Pubkey) (poll : PollAccount) (i : Nat)
    (hp : alookup s.polls pollAddr = some poll)
    (hc : suppliedCreator = poll.creator)
    (hnew : alookup s.voteRecords (deriveVoteAddr pollAddr voter) = none)
    (hact : poll.is_active = true)
    (hi : i < poll.options.length)
    (hlen : poll.votes.length = poll.options.length)
    (hover : nth poll.votes i < U64MAX) :
    ∃ s2, vote_poll s pollAddr voter suppliedCreator i = Except.ok s2
      ∧ (∃ p2, alookup s2.polls pollAddr = some p2
          ∧ nth p2.votes i = nth poll.votes i + 1
          ∧ (∀ j, j ≠ i → nth p2.votes j = nth poll.votes j)
          ∧ p2.options = poll.options
          ∧ p2.is_active = poll.is_active
          ∧ p2.creator = poll.creator)
      ∧ alookup s2.voteRecords (deriveVoteAddr pollAddr voter)
          = some { voter := voter, poll := pollAddr, option_index := i,
                   bump := bumpOf (deriveVoteAddr pollAddr voter) }
      ∧ countKey s2.voteRecords (deriveVoteAddr pollAddr voter) = 1 := by
  have hca : checked_add (poll.votes.getD i 0) 1 = some (poll.votes.getD i 0 + 1) := by
    rw [checked_add, if_neg]
    rw [nth_eq_getD] at hover
    omega
  refine ⟨⟨updateA s.polls pollAddr
      { poll with votes := poll.votes.set i (poll.votes.getD i 0 + 1) },
    (deriveVoteAddr pollAddr voter,
      { voter := voter, poll := pollAddr, option_index := i,
        bump := bumpOf (deriveVoteAddr pollAddr voter) }) :: s.voteRecords⟩,
    ?_, ?_, ?_, ?_⟩
  · simp only [vote_poll, hp, if_pos hc, hnew, hact, if_pos hi, hca, if_true]
  · refine ⟨{ poll with votes := poll.votes.set i (poll.votes.getD i 0 + 1) },
      ?_, ?_, ?_, rfl, rfl, rfl⟩
    · exact alookup_updateA_self s.polls pollAddr _ poll hp
    · rw [nth_set_self poll.votes i _ (hlen ▸ hi), nth_eq_getD]
    · intro j hj
      exact nth_set_ne poll.votes i j _ hj
  · simp [alookup]
  · rw [countKey, if_pos rfl, countKey_eq_zero s.voteRecords _ hnew]

theorem C3_witness :
    ∃ s2, vote_poll
        ⟨[(derivePollAddr 0 1,
           { creator := 0, poll_id := 1, question := [65], options := [[65], [66]],
             votes := [0, 0], is_active := true, bump := 255 })], []⟩
        (derivePollAddr 0 1) 7 0 1 = Except.ok s2
      ∧ (∃ p2, alookup s2.polls (derivePollAddr 0 1) = some p2
          ∧ nth p2.votes 1 = nth [0, 0] 1 + 1
          ∧ (∀ j, j ≠ 1 → nth p2.votes j = nth [0, 0] j)
          ∧ p2.options = [[65], [66]]
          ∧ p2.is_active = true
          ∧ p2.creator = 0)
      ∧ alookup s2.voteRecords (deriveVoteAddr (derivePollAddr 0 1) 7)
          = some { voter := 7, poll := derivePollAddr 0 1, option_index := 1,
                   bump := bumpOf (deriveVoteAddr (derivePollAddr 0 1) 7) }
      ∧ countKey s2.voteRecords (deriveVoteAddr (derivePollAddr 0 1) 7) = 1 :=
  C3_first_vote
    ⟨[(derivePollAddr 0 1,
       { creator := 0, poll_id := 1, question := [65], options := [[65], [66]],
         votes := [0, 0], is_active := true, bump := 255 })], []⟩
    (derivePollAddr 0 1) 7 0
    { creator := 0, poll_id := 1, question := [65], options := [[65], [66]],
      votes := [0, 0], is_active := true, bump := 255 } 1
    (by simp [alookup]) rfl rfl rfl (by decide) (by decide) (by decide)

/-- C4 counterexample: after creating a poll and voting once as voter 7, a
second `vote_poll` by voter 7 fails with the framework's
account-already-in-use fault from the `init` constraint on the marker PDA,
not with `VotingError.AlreadyVoted` — the declared `AlreadyVoted` variant
is returned by no code path of `lib.rs`. -/
theorem C4_counterexample :
    vote_poll
        (runOps initState
          [Op.create 0 1 [65] [[65], [66]],
           Op.vote (derivePollAddr 0 1) 7 0 0])
        (derivePollAddr 0 1) 7 0 1
      = Except.error TxError.accountAlreadyInUse
    ∧ TxError.accountAlreadyInUse ≠ TxError.voting VotingError.AlreadyVoted := by
  constructor
  · rfl
  · decide

/-- C4 (amended): a second vote by a voter who already holds a marker for
the poll fails — with the account-already-in-use fault raised by the
`init` constraint at the derived `(poll, voter)` address, which is the
sole double-vote guard — for any option index, and commits no state
change (all counters unchanged, no second VoteRecord). -/
theorem C4_second_vote_rejected (s : EvoterState) (pollAddr : Addr)
    (voter suppliedCreator : Pubkey) (poll : PollAccount) (r : VoteRecord)
    (hp : alookup s.polls pollAddr = some poll)
    (hc : suppliedCreator = poll.creator)
    (hr : alookup s.voteRecords (deriveVoteAddr pollAddr voter) = some r) :
    ∀ i, vote_poll s pollAddr voter suppliedCreator i
        = Except.error TxError.accountAlreadyInUse
      ∧ step s (Op.vote pollAddr voter suppliedCreator i) = s := by
  intro i
  have hv : vote_poll s pollAddr voter suppliedCreator i
      = Except.error TxError.accountAlreadyInUse := by
    simp only [vote_poll, hp, if_pos hc, hr]
  exact ⟨hv, by simp only [step, applyOp, hv]⟩

theorem C4_witness :
    vote_poll
        ⟨[(derivePollAddr 0 1,
           { creator := 0, poll_id := 1, question := [65], options := [[65], [66]],
             votes := [1, 0], is_active := true, bump := 255 })],
         [(deriveVoteAddr (derivePollAddr 0 1) 7,
           { voter := 7, poll := derivePollAddr 0 1, option_index := 0, bump := 255 })]⟩
        (derivePollAddr 0 1) 7 0 1
      = Except.error TxError.accountAlreadyInUse
    ∧ step
        ⟨[(derivePollAddr 0 1,
           { creator := 0, poll_id := 1, question := [65], options := [[65], [66]],
             votes := [1, 0], is_active := true, bump := 255 })],
         [(deriveVoteAddr (derivePollAddr 0 1) 7,
           { voter := 7, poll := derivePollAddr 0 1, option_index := 0, bump := 255 })]⟩
        (Op.vote (derivePollAddr 0 1) 7 0 1)
      = ⟨[(derivePollAddr 0 1,
           { creator := 0, poll_id := 1, question := [65], options := [[65], [66]],
             votes := [1, 0], is_active := true, bump := 255 })],
         [(deriveVoteAddr (derivePollAddr 0 1) 7,
           { voter := 7, poll := derivePollAddr 0 1, option_index := 0, bump := 255 })]⟩ :=
  C4_second_vote_rejected
    ⟨[(derivePollAddr 0 1,
       { creator := 0, poll_id := 1, question := [65], options := [[65], [66]],
         votes := [1, 0], is_active := true, bump := 255 })],
     [(deriveVoteAddr (derivePollAddr 0 1) 7,
       { voter := 7, poll := derivePollAddr 0 1, option_index := 0, bump := 255 })]⟩
    (derivePollAddr 0 1) 7 0
    { creator := 0, poll_id := 1, question := [65], options := [[65], [66]],
      votes := [1, 0], is_active := true, bump := 255 }
    { voter := 7, poll := derivePollAddr 0 1, option_index := 0, bump := 255 }
    (by simp [alookup]) rfl (by simp [alookup]) 1

/-- C5: with the poll present, the supplied creator matching, and no
existing marker, `vote_poll` fails with `PollClosed` when the poll is
inactive, with `InvalidOption` when the index is out of range, and with
`VoteOverflow` (checked, not wrapped) when the target counter already
holds `u64::MAX`; and every failing `vote_poll` commits no state change
(no counter increment, no durable marker). -/
theorem C5_vote_failures (s : EvoterState) (pollAddr : Addr)
    (voter suppliedCreator : Pubkey) (poll : PollAccount) (i : Nat)
    (hp : alookup s.polls pollAddr = some poll)
    (hc : suppliedCreator = poll.creator)
    (hnew : alookup s.voteRecords (deriveVoteAddr pollAddr voter) = none) :
    (poll.is_active = false →
      vote_poll s pollAddr voter suppliedCreator i
        = Except.error (TxError.voting VotingError.PollClosed))
    ∧ (poll.is_active = true → poll.options.length ≤ i →
      vote_poll s pollAddr voter suppliedCreator i
        = Except.error (TxError.voting VotingError.InvalidOption))
    ∧ (poll.is_active = true → i < poll.options.length → nth poll.votes i = U64MAX →
      vote_poll s pollAddr voter suppliedCreator i
        = Except.error (TxError.voting VotingError.VoteOverflow))
    ∧ (∀ e, vote_poll s pollAddr voter suppliedCreator i = Except.error e →
      step s (Op.vote pollAddr voter suppliedCreator i) = s) := by
  refine ⟨?_, ?_, ?_, ?_⟩
  · intro hin
    simp [vote_poll, hp, if_pos hc, hnew, hin]
  · intro hact hle
    have hni : ¬ i < poll.options.length := Nat.not_lt.mpr hle
    simp [vote_poll, hp, if_pos hc, hnew, hact, hni]
  · intro hact hi hmax
    rw [nth_eq_getD] at hmax
    have hca : checked_add (poll.votes.getD i 0) 1 = none := by
      rw [checked_add, if_pos]
      rw [hmax]
      simp only [U64MAX]
      omega
    have hca2 : checked_add (poll.votes[i]?.getD 0) 1 = none := by
      simpa using hca
    simp [vote_poll, hp, if_pos hc, hnew, hact, hi, hca, hca2]
  · intro e he
    simp only [step, applyOp, he]

theorem C5_witness :
    vote_poll
        ⟨[(derivePollAddr 0 1,
           { creator := 0, poll_id := 1, question := [65], options := [[65], [66]],
             votes := [1, 1], is_active := false, bump := 255 })], []⟩
        (derivePollAddr 0 1) 7 0 0
      = Except.error (TxError.voting VotingError.PollClosed) :=
  (C5_vote_failures
    ⟨[(derivePollAddr 0 1,
       { creator := 0, poll_id := 1, question := [65], options := [[65], [66]],
         votes := [1, 1], is_active := false, bump := 255 })], []⟩
    (derivePollAddr 0 1) 7 0
    { creator := 0, poll_id := 1, question := [65], options := [[65], [66]],
      votes := [1, 1], is_active := false, bump := 255 } 0
    (by simp [alookup]) rfl rfl).1 rfl

/-- C10: `vote_poll` has an account-validation precondition beyond the
external interface: the supplied creator account must equal
`poll.creator` (`has_one = creator`). On mismatch the instruction fails
with the has-one constraint fault for every option index, before any
handler logic (active check, range check, increment) runs, and commits
no state change. -/
theorem C10_vote_has_one (s : EvoterState) (pollAddr : Addr)
    (voter suppliedCreator : Pubkey) (poll : PollAccount)
    (hp : alookup s.polls pollAddr = some poll)
    (hc : suppliedCreator ≠ poll.creator) :
    ∀ i, vote_poll s pollAddr voter suppliedCreator i
        = Except.error TxError.constraintHasOne
      ∧ step s (Op.vote pollAddr voter suppliedCreator i) = s := by
  intro i
  have hv : vote_poll s pollAddr voter suppliedCreator i
      = Except.error TxError.constraintHasOne := by
    simp only [vote_poll, hp, if_neg hc]
  exact ⟨hv, by simp only [step, applyOp, hv]⟩

theorem C10_witness :
    vote_poll
        ⟨[(derivePollAddr 0 1,
           { creator := 0, poll_id := 1, question := [65], options := [[65], [66]],
             votes := [0, 0], is_active := true, bump := 255 })], []⟩
        (derivePollAddr 0 1) 7 9 0
      = Except.error TxError.constraintHasOne :=
  (C10_vote_has_one
    ⟨[(derivePollAddr 0 1,
       { creator := 0, poll_id := 1, question := [65], options := [[65], [66]],
         votes := [0, 0], is_active := true, bump := 255 })], []⟩
    (derivePollAddr 0 1) 7 9
    { creator := 0, poll_id := 1, question := [65], options := [[65], [66]],
      votes := [0, 0], is_active := true, bump := 255 }
    (by simp [alookup]) (by decide) 0).1

/-- C6: `close_poll` fails with `Unauthorized` when the caller differs
from `poll.creator`, fails with `PollAlreadyClosed` when the poll is
already inactive, and on success sets `is_active` to false while leaving
creator, poll_id, question, options, votes, and the derivation nonce
(bump) of the poll unchanged. -/
theorem C6_close_poll (s : EvoterState) (pollAddr : Addr) (caller : Pubkey)
    (poll : PollAccount)
    (hp : alookup s.polls pollAddr = some poll) :
    (poll.creator ≠ caller →
      close_poll s pollAddr caller
        = Except.error (TxError.voting VotingError.Unauthorized))
    ∧ (poll.creator = caller → poll.is_active = false →
      close_poll s pollAddr caller
        = Except.error (TxError.voting VotingError.PollAlreadyClosed))
    ∧ (poll.creator = caller → poll.is_active = true →
      ∃ s2 p2, close_poll s pollAddr caller = Except.ok s2
        ∧ alookup s2.polls pollAddr = some p2
        ∧ p2.is_active = false
        ∧ p2.creator = poll.creator
        ∧ p2.poll_id = poll.poll_id
        ∧ p2.question = poll.question
        ∧ p2.options = poll.options
        ∧ p2.votes = poll.votes
        ∧ p2.bump = poll.bump
        ∧ s2.voteRecords = s.voteRecords
        ∧ (∀ a, a ≠ pollAddr → alookup s2.polls a = alookup s.polls a)) := by
  refine ⟨?_, ?_, ?_⟩
  · intro hne
    simp [close_poll, hp, hne]
  · intro hceq hin
    simp [close_poll, hp, hceq, hin]
  · intro hceq hact
    refine ⟨⟨updateA s.polls pollAddr { poll with is_active := false }, s.voteRecords⟩,
      { poll with is_active := false },
      ?_, ?_, rfl, rfl, rfl, rfl, rfl, rfl, rfl, rfl, ?_⟩
    · simp [close_poll, hp, hceq, hact]
    · exact alookup_updateA_self s.polls pollAddr _ poll hp
    · intro a ha
      exact alookup_updateA_ne s.polls pollAddr a _ ha

theorem C6_witness :
    ∃ s2 p2, close_poll
        ⟨[(derivePollAddr 0 1,
           { creator := 0, poll_id := 1, question := [65], options := [[65], [66]],
             votes := [1, 1], is_active := true, bump := 255 })], []⟩
        (derivePollAddr 0 1) 0 = Except.ok s2
      ∧ alookup s2.polls (derivePollAddr 0 1) = some p2
      ∧ p2.is_active = false
      ∧ p2.creator = 0
      ∧ p2.poll_id = 1
      ∧ p2.question = [65]
      ∧ p2.options = [[65], [66]]
      ∧ p2.votes = [1, 1]
      ∧ p2.bump = 255
      ∧ s2.voteRecords = ([] : List (Addr × VoteRecord))
      ∧ (∀ a, a ≠ derivePollAddr 0 1 →
          alookup s2.polls a
            = alookup [(derivePollAddr 0 1,
                ({ creator := 0, poll_id := 1, question := [65], options := [[65], [66]],
                   votes := [1, 1], is_active := true, bump := 255 } : PollAccount))] a) :=
  (C6_close_poll
    ⟨[(derivePollAddr 0 1,
       { creator := 0, poll_id := 1, question := [65], options := [[65], [66]],
         votes := [1, 1], is_active := true, bump := 255 })], []⟩
    (derivePollAddr 0 1) 0
    { creator := 0, poll_id := 1, question := [65], options := [[65], [66]],
      votes := [1, 1], is_active := true, bump := 255 }
    (by simp [alookup])).2.2 rfl rfl

/-- What any instruction preserves about an existing poll record: the
identity fields are untouched, the counter vector keeps its length and
each counter never decreases, and a closed poll never reactivates. -/
def PollPres (p p2 : PollAccount) : Prop :=
  p2.creator = p.creator
  ∧ p2.poll_id = p.poll_id
  ∧ p2.question = p.question
  ∧ p2.options = p.options
  ∧ p2.votes.length = p.votes.length
  ∧ (∀ i, nth p.votes i ≤ nth p2.votes i)
  ∧ (p.is_active = false → p2.is_active = false)

theorem pollPres_refl (p : PollAccount) : PollPres p p :=
  ⟨rfl, rfl, rfl, rfl, rfl, fun _ => Nat.le_refl _, fun h => h⟩

theorem pollPres_trans {p q r : PollAccount} (h1 : PollPres p q) (h2 : PollPres q r) :
    PollPres p r := by
  obtain ⟨a1, b1, c1, d1, e1, f1, g1⟩ := h1
  obtain ⟨a2, b2, c2, d2, e2, f2, g2⟩ := h2
  exact ⟨a2.trans a1, b2.trans b1, c2.trans c1, d2.trans d1, e2.trans e1,
    fun i => Nat.le_trans (f1 i) (f2 i), fun h => g2 (g1 h)⟩

theorem nth_set_ge (l : List Nat) (i n : Nat) (hge : nth l i ≤ n) :
    ∀ j, nth l j ≤ nth (l.set i n) j := by
  induction l generalizing i with
  | nil => intro j; exact Nat.le_refl _
  | cons x xs ih =>
    cases i with
    | zero =>
      intro j
      cases j with
      | zero => exact hge
      | succ j => exact Nat.le_refl _
    | succ i =>
      intro j
      cases j with
      | zero => exact Nat.le_refl _
      | succ j => exact ih i hge j

theorem step_lookup (s : EvoterState) (op : Op) (a : Addr) (p : PollAccount)
    (h : alookup s.polls a = some p) :
    ∃ p2, alookup (step s op).polls a = some p2 ∧ PollPres p p2 := by
  cases op with
  | create c pid q os =>
    cases hx : alookup s.polls (derivePollAddr c pid) with
    | some pp =>
      refine ⟨p, ?_, pollPres_refl p⟩
      simp only [step, applyOp, create_poll, hx]
      exact h
    | none =>
      by_cases h2 : os.length < 2
      · refine ⟨p, ?_, pollPres_refl p⟩
        simp only [step, applyOp, create_poll, hx, if_pos h2]
        exact h
      · by_cases h10 : os.length > PollAccount.MAX_OPTIONS
        · refine ⟨p, ?_, pollPres_refl p⟩
          simp only [step, applyOp, create_poll, hx, if_neg h2, if_pos h10]
          exact h
        · by_cases hq : q.length > PollAccount.MAX_QUESTION_LEN
          · refine ⟨p, ?_, pollPres_refl p⟩
            simp only [step, applyOp, create_poll, hx, if_neg h2, if_neg h10, if_pos hq]
            exact h
          · cases hfo : firstOptionError os with
            | some e =>
              refine ⟨p, ?_, pollPres_refl p⟩
              simp only [step, applyOp, create_poll, hx, if_neg h2, if_neg h10, if_neg hq, hfo]
              exact h
            | none =>
              refine ⟨p, ?_, pollPres_refl p⟩
              simp only [step, applyOp, create_poll, hx, if_neg h2, if_neg h10, if_neg hq, hfo]
              have hne : a ≠ derivePollAddr c pid := by
                intro he
                rw [he, hx] at h
                cases h
              rw [alookup, if_neg hne]
              exact h
  | vote pa v sc i =>
    cases hx : alookup s.polls pa with
    | none =>
      refine ⟨p, ?_, pollPres_refl p⟩
      simp only [step, applyOp, vote_poll, hx]
      exact h
    | some poll =>
      by_cases hc : sc = poll.creator
      · cases hm : alookup s.voteRecords (deriveVoteAddr pa v) with
        | some r =>
          refine ⟨p, ?_, pollPres_refl p⟩
          simp only [step, applyOp, vote_poll, hx, if_pos hc, hm]
          exact h
        | none =>
          by_cases hact : poll.is_active = true
          · by_cases hi : i < poll.options.length
            · cases hca : checked_add (poll.votes.getD i 0) 1 with
              | none =>
                refine ⟨p, ?_, pollPres_refl p⟩
                simp only [step, applyOp, vote_poll, hx, if_pos hc, hm, hact, if_pos hi,
                  hca, if_true]
                exact h
              | some n =>
                by_cases hap : a = pa
                · subst hap
                  rw [hx] at h
                  injection h with hpp
                  subst hpp
                  refine ⟨{ poll with votes := poll.votes.set i n }, ?_, ?_⟩
                  · simp only [step, applyOp, vote_poll, hx, if_pos hc, hm, hact, if_pos hi,
                      hca, if_true]
                    exact alookup_updateA_self s.polls a _ poll hx
                  · refine ⟨rfl, rfl, rfl, rfl, List.length_set poll.votes i n, ?_, fun hf => hf⟩
                    apply nth_set_ge
                    have : n = poll.votes.getD i 0 + 1 := by
                      rw [checked_add] at hca
                      by_cases hov : poll.votes.getD i 0 + 1 > U64MAX
                      · rw [if_pos hov] at hca; cases hca
                      · rw [if_neg hov] at hca; injection hca with hn; exact hn.symm
                    rw [this, nth_eq_getD]
                    exact Nat.le_succ _
                · refine ⟨p, ?_, pollPres_refl p⟩
                  simp only [step, applyOp, vote_poll, hx, if_pos hc, hm, hact, if_pos hi,
                    hca, if_true]
                  rw [alookup_updateA_ne s.polls pa a _ hap]
                  exact h
            · refine ⟨p, ?_, pollPres_refl p⟩
              simp only [step, applyOp, vote_poll, hx, if_pos hc, hm, hact, if_neg hi, if_true]
              exact h
          · refine ⟨p, ?_, pollPres_refl p⟩
            have hfa : poll.is_active = false := by
              cases hb : poll.is_active
              · rfl
              · exact absurd hb hact
            simp only [step, applyOp, vote_poll, hx, if_pos hc, hm, hfa, if_false]
            exact h
      · refine ⟨p, ?_, pollPres_refl p⟩
        simp only [step, applyOp, vote_poll, hx, if_neg hc]
        exact h
  | close pa c =>
    cases hx : alookup s.polls pa with
    | none =>
      refine ⟨p, ?_, pollPres_refl p⟩
      simp only [step, applyOp, close_poll, hx]
      exact h
    | some poll =>
      by_cases hc : poll.creator = c
      · by_cases hact : poll.is_active = true
        · by_cases hap : a = pa
          · subst hap
            rw [hx] at h
            injection h with hpp
            subst hpp
            refine ⟨{ poll with is_active := false }, ?_, ?_⟩
            · simp only [step, applyOp, close_poll, hx, if_pos hc, hact, if_true]
              exact alookup_updateA_self s.polls a _ poll hx
            · exact ⟨rfl, rfl, rfl, rfl, rfl, fun _ => Nat.le_refl _, fun _ => rfl⟩
          · refine ⟨p, ?_, pollPres_refl p⟩
            simp only [step, applyOp, close_poll, hx, if_pos hc, hact, if_true]
            rw [alookup_updateA_ne s.polls pa a _ hap]
            exact h
        · refine ⟨p, ?_, pollPres_refl p⟩
          have hfa : poll.is_active = false := by
            cases hb : poll.is_active
            · rfl
            · exact absurd hb hact
          simp only [step, applyOp, close_poll, hx, if_pos hc, hfa, if_false]
          exact h
      · refine ⟨p, ?_, pollPres_refl p⟩
        simp only [step, applyOp, close_poll, hx, if_neg hc]
        exact h

/-- Every poll record in the store pairs its options with an
equally-long counter vector. -/
def LenInv (s : EvoterState) : Prop :=
  ∀ a p, alookup s.polls a = some p → p.options.length = p.votes.length

theorem alookup_updateA_inv {α : Type} (m : List (Addr × α)) (k a : Addr) (v w : α)
    (h : alookup (updateA m k v) a = some w) :
    (a = k ∧ w = v) ∨ (a ≠ k ∧ alookup m a = some w) := by
  induction m with
  | nil => cases h
  | cons kv rest ih =>
    obtain ⟨k1, v1⟩ := kv
    by_cases hk : k = k1
    · subst hk
      rw [updateA, if_pos rfl] at h
      by_cases ha : a = k
      · rw [alookup, if_pos ha] at h
        injection h with hw
        exact Or.inl ⟨ha, hw.symm⟩
      · rw [alookup, if_neg ha] at h
        refine Or.inr ⟨ha, ?_⟩
        rw [alookup, if_neg ha]
        exact h
    · rw [updateA, if_neg hk] at h
      by_cases ha : a = k1
      · rw [alookup, if_pos ha] at h
        injection h with hw
        refine Or.inr ⟨?_, ?_⟩
        · intro hak
          exact hk ((ha.symm.trans hak).symm)
        · rw [alookup, if_pos ha, hw]
      · rw [alookup, if_neg ha] at h
        rcases ih h with hl | ⟨hne, hm⟩
        · exact Or.inl hl
        · refine Or.inr ⟨hne, ?_⟩
          rw [alookup, if_neg ha]
          exact hm

theorem step_LenInv (s : EvoterState) (op : Op) (h : LenInv s) : LenInv (step s op) := by
  cases op with
  | create c pid q os =>
    cases hx : alookup s.polls (derivePollAddr c pid) with
    | some pp =>
      simp only [step, applyOp, create_poll, hx]
      exact h
    | none =>
      by_cases h2 : os.length < 2
      · simp only [step, applyOp, create_poll, hx, if_pos h2]
        exact h
      · by_cases h10 : os.length > PollAccount.MAX_OPTIONS
        · simp only [step, applyOp, create_poll, hx, if_neg h2, if_pos h10]
          exact h
        · by_cases hq : q.length > PollAccount.MAX_QUESTION_LEN
          · simp only [step, applyOp, create_poll, hx, if_neg h2, if_neg h10, if_pos hq]
            exact h
          · cases hfo : firstOptionError os with
            | some e =>
              simp only [step, applyOp, create_poll, hx, if_neg h2, if_neg h10, if_neg hq, hfo]
              exact h
            | none =>
              simp only [step, applyOp, create_poll, hx, if_neg h2, if_neg h10, if_neg hq, hfo]
              intro a p hp
              simp only [alookup] at hp
              by_cases ha : a = derivePollAddr c pid
              · rw [if_pos ha] at hp
                injection hp with hpv
                subst hpv
                simp
              · rw [if_neg ha] at hp
                exact h a p hp
  | vote pa v sc i =>
    cases hx : alookup s.polls pa with
    | none =>
      simp only [step, applyOp, vote_poll, hx]
      exact h
    | some poll =>
      by_cases hc : sc = poll.creator
      · cases hm : alookup s.voteRecords (deriveVoteAddr pa v) with
        | some r =>
          simp only [step, applyOp, vote_poll, hx, if_pos hc, hm]
          exact h
        | none =>
          by_cases hact : poll.is_active = true
          · by_cases hi : i < poll.options.length
            · cases hca : checked_add (poll.votes.getD i 0) 1 with
              | none =>
                simp only [step, applyOp, vote_poll, hx, if_pos hc, hm, hact, if_pos hi,
                  hca, if_true]
                exact h
              | some n =>
                simp only [step, applyOp, vote_poll, hx, if_pos hc, hm, hact, if_pos hi,
                  hca, if_true]
                intro a p hp
                rcases alookup_updateA_inv s.polls pa a _ p hp with ⟨ha, hpv⟩ | ⟨ha, hold⟩
                · subst hpv
                  have hinv := h pa poll hx
                  simpa [List.length_set] using hinv
                · exact h a p hold
            · simp only [step, applyOp, vote_poll, hx, if_pos hc, hm, hact, if_neg hi, if_true]
              exact h
          · have hfa : poll.is_active = false := by
              cases hb : poll.is_active
              · rfl
              · exact absurd hb hact
            simp only [step, applyOp, vote_poll, hx, if_pos hc, hm, hfa, if_false]
            exact h
      · simp only [step, applyOp, vote_poll, hx, if_neg hc]
        exact h
  | close pa c =>
    cases hx : alookup s.polls pa with
    | none =>
      simp only [step, applyOp, close_poll, hx]
      exact h
    | some poll =>
      by_cases hc : poll.creator = c
      · by_cases hact : poll.is_active = true
        · simp only [step, applyOp, close_poll, hx, if_pos hc, hact, if_true]
          intro a p hp
          rcases alookup_updateA_inv s.polls pa a _ p hp with ⟨ha, hpv⟩ | ⟨ha, hold⟩
          · subst hpv
            exact h pa poll hx
          · exact h a p hold
        · have hfa : poll.is_active = false := by
            cases hb : poll.is_active
            · rfl
            · exact absurd hb hact
          simp only [step, applyOp, close_poll, hx, if_pos hc, hfa, if_false]
          exact h
      · simp only [step, applyOp, close_poll, hx, if_neg hc]
        exact h

theorem runOps_LenInv (s : EvoterState) (ops : List Op) (h : LenInv s) :
    LenInv (runOps s ops) := by
  induction ops generalizing s with
  | nil => exact h
  | cons op rest ih => exact ih (step s op) (step_LenInv s op h)

theorem initState_LenInv : LenInv initState := by
  intro a p hp
  cases hp

theorem runOps_lookup (s : EvoterState) (ops : List Op) (a : Addr) (p : PollAccount)
    (h : alookup s.polls a = some p) :
    ∃ p2, alookup (runOps s ops).polls a = some p2 ∧ PollPres p p2 := by
  induction ops generalizing s p with
  | nil => exact ⟨p, h, pollPres_refl p⟩
  | cons op rest ih =>
    obtain ⟨q, hq, hpq⟩ := step_lookup s op a p h
    obtain ⟨r, hr, hqr⟩ := ih (step s op) q hq
    exact ⟨r, hr, pollPres_trans hpq hqr⟩

/-- C7: in every state reachable by any sequence of create/vote/close
instructions from the empty store, each poll record satisfies
`len(options) = len(votes)`; and across any such sequence an existing
poll keeps its creator, pollId, question and options, its counter vector
keeps its length with each counter non-decreasing, and once inactive it
never becomes active again (`PollPres`). -/
theorem C7_reachable_invariants :
    (∀ (ops : List Op) (a : Addr) (p : PollAccount),
      alookup (runOps initState ops).polls a = some p →
      p.options.length = p.votes.length)
    ∧ (∀ (s : EvoterState) (ops : List Op) (a : Addr) (p p2 : PollAccount),
      alookup s.polls a = some p →
      alookup (runOps s ops).polls a = some p2 →
      PollPres p p2) := by
  constructor
  · intro ops a p hp
    exact runOps_LenInv initState ops initState_LenInv a p hp
  · intro s ops a p p2 hp hp2
    obtain ⟨q, hq, hpq⟩ := runOps_lookup s ops a p hp
    have hqq : some q = some p2 := hq.symm.trans hp2
    injection hqq with he
    exact he ▸ hpq

theorem C7_witness :
    PollPres
      { creator := 0, poll_id := 1, question := [65], options := [[65], [66]],
        votes := [0, 0], is_active := true, bump := 255 }
      { creator := 0, poll_id := 1, question := [65], options := [[65], [66]],
        votes := [0, 0], is_active := false, bump := 255 } :=
  C7_reachable_invariants.2
    ⟨[(derivePollAddr 0 1,
       { creator := 0, poll_id := 1, question := [65], options := [[65], [66]],
         votes := [0, 0], is_active := true, bump := 255 })], []⟩
    [Op.close (derivePollAddr 0 1) 0] (derivePollAddr 0 1)
    { creator := 0, poll_id := 1, question := [65], options := [[65], [66]],
      votes := [0, 0], is_active := true, bump := 255 }
    { creator := 0, poll_id := 1, question := [65], options := [[65], [66]],
      votes := [0, 0], is_active := false, bump := 255 }
    (by simp [alookup]) (by rfl)
